import Mathlib

/-!
Shallow embedding of the `QOption<Type>` container from `src/qoption.h`.

The C++ object holds a boolean discriminant `available` and a raw aligned
storage cell for one value of the parameter type.  The storage cell is
modelled as `Option α`: `none` stands for storage that has never been
written (uninitialized memory), `some v` for storage whose last written
value is `v`.  After a consuming operation the C++ storage still
physically holds a (moved-from) object, so the model keeps the stale
`some v` and only clears the discriminant, exactly like the code.
Reading the storage cell is `Option.getD default`: reading memory always
yields some bytes, and `default` plays the role of the indeterminate
content of uninitialized storage.  Caller-supplied callbacks may have
side effects, so they are embedded state-passing style over an abstract
effect state `σ`.  Exceptions (`throw E(...)` in `unwrap`/`expect`,
where `E` is a caller-chosen exception type built from a message) are
modelled with `Except ε` and a caller-supplied constructor
`mkE : String → ε`.

A second family of definitions (suffix `L`) is the same code instrumented
with a log of storage-read events: each read of the storage cell records
the value of the discriminant at the moment of the read and whether the
cell had been written before.  These model invariant I1 of the spec.
-/

structure QOption (α : Type) where
  available : Bool
  store : Option α
deriving DecidableEq

/-- One read of the raw storage cell: the discriminant at the moment of
the read, and whether the cell held a previously written value. -/
structure ReadEvent where
  availAtRead : Bool
  storeInit : Bool
deriving DecidableEq

namespace QOption

variable {α σ ρ ε : Type}

/-- `bool isNone() const { return !available; }` -/
def isNone (o : QOption α) : Bool := !o.available

/-- `bool isSome() const { return available; }` -/
def isSome (o : QOption α) : Bool := o.available

/-- Default constructor `QOption()` / static factory `None()`:
discriminant false, storage untouched (uninitialized). -/
def None : QOption α := ⟨false, Option.none⟩

/-- Value constructors `QOption(const Type&)` / `QOption(Type&&)` and the
static factories `Some(const Type&)` / `Some(Type&&)`: the resulting
container state — the cell holds `t` and the discriminant is set.  The
move overload's `std::swap(*__ptr_v(), t)` additionally reads the fresh
never-written cell and leaves that indeterminate content in the expiring
argument `t`; that read (which does not affect the container's state) is
modelled by the instrumented `SomeMoveL` below. -/
def Some (t : α) : QOption α := ⟨true, Option.some t⟩

/-- `Type unwrap()`: throw `E("Option is None value")` when None;
otherwise clear the discriminant and move the stored value out.
Returns the value together with the container after the call. -/
def unwrap [Inhabited α] (o : QOption α) (mkE : String → ε) :
    Except ε (α × QOption α) :=
  if o.isNone then Except.error (mkE "Option is None value")
  else
    let o1 : QOption α := { o with available := false }
    Except.ok (o1.store.getD default, o1)

/-- `Type expect(const char* text)`: like `unwrap` but the exception
carries the caller's message. -/
def expect [Inhabited α] (o : QOption α) (mkE : String → ε) (text : String) :
    Except ε (α × QOption α) :=
  if o.isNone then Except.error (mkE text)
  else
    let o1 : QOption α := { o with available := false }
    Except.ok (o1.store.getD default, o1)

/-- Transfer (move) constructor `QOption(QOption&& o)`: when the source is
Some, the new storage receives `o.unwrap()` (which clears the source's
discriminant) and the new discriminant is set; otherwise the new object
is not available and its storage stays uninitialized.  Returns
(constructed object, source after the call). -/
def moveCtor [Inhabited α] (o : QOption α) : QOption α × QOption α :=
  if o.isSome then
    let o1 : QOption α := { o with available := false }
    (⟨true, Option.some (o1.store.getD default)⟩, o1)
  else (⟨false, Option.none⟩, o)

/-- Transfer constructor from a mutable reference `QOption(QOption& o)`:
same body as the move constructor, so it also empties the source. -/
def copyCtor [Inhabited α] (o : QOption α) : QOption α × QOption α :=
  if o.isSome then
    let o1 : QOption α := { o with available := false }
    (⟨true, Option.some (o1.store.getD default)⟩, o1)
  else (⟨false, Option.none⟩, o)

/-- `operator==(const QOption& o)`:
`isSome() == o.isSome() && ((isSome() && *v == *o.v) || isNone())`. -/
def beq [Inhabited α] [DecidableEq α] (a b : QOption α) : Bool :=
  (a.isSome == b.isSome) &&
    ((a.isSome && decide (a.store.getD default = b.store.getD default)) || a.isNone)

/-- `operator=(QOption&& o)`: when the source is Some, this storage
receives `o.unwrap()` (clearing the source) and the discriminant is set;
otherwise only the discriminant is cleared (old storage content is left
behind).  Returns (destination after, source after). -/
def assignMove [Inhabited α] (self o : QOption α) : QOption α × QOption α :=
  if o.isSome then
    let o1 : QOption α := { o with available := false }
    ({ self with available := true, store := Option.some (o1.store.getD default) }, o1)
  else ({ self with available := false }, o)

/-- `operator=(QOption& o)`: when the source is Some, the source's
discriminant is cleared, the raw storage cell is copied byte-wise
(`value = o.value`), and this discriminant is set; otherwise only this
discriminant is cleared.  Returns (destination after, source after). -/
def assignCopy (self o : QOption α) : QOption α × QOption α :=
  if o.isSome then
    let o1 : QOption α := { o with available := false }
    ({ self with available := true, store := o1.store }, o1)
  else ({ self with available := false }, o)

/-- `operator=(QOption& o)` executed with the source aliased to the
destination (self-assignment `c = c`), statement by statement on the one
shared object: the guard `o.isSome()` reads the shared discriminant, then
`o.available = false`, `value = o.value` (a self-copy) and
`available = true` all act on the same object. -/
def assignCopySelf (c : QOption α) : QOption α :=
  if c.isSome then
    let c1 : QOption α := { c with available := false }
    let c2 : QOption α := { c1 with store := c1.store }
    { c2 with available := true }
  else { c with available := false }

/-- `if_some(fn)`: when Some, `fn(*v)` runs (for its side effect, embedded
as a transformer of the effect state); the container is returned
unchanged. -/
def if_some [Inhabited α] (o : QOption α) (fn : α → σ → σ) (s : σ) :
    QOption α × σ :=
  if o.isSome then (o, fn (o.store.getD default) s) else (o, s)

/-- `if_none(fn)`: when None, `fn()` runs; the container is returned
unchanged. -/
def if_none (o : QOption α) (fn : σ → σ) (s : σ) : QOption α × σ :=
  if o.isNone then (o, fn s) else (o, s)

/-- `Type unwrap_or(none_fn)`: when None, the storage cell is first
overwritten with `none_fn()`'s result; either way the discriminant is
then cleared and the stored value moved out.  The callback is effectful:
`none_fn : σ → σ × α`.  Returns (value, container after, effect state). -/
def unwrap_or [Inhabited α] (o : QOption α) (none_fn : σ → σ × α) (s : σ) :
    α × QOption α × σ :=
  let p : QOption α × σ :=
    if o.isNone then
      let r := none_fn s
      ({ o with store := Option.some r.2 }, r.1)
    else (o, s)
  let o2 : QOption α := { p.1 with available := false }
  (o2.store.getD default, o2, p.2)

/-- `Res match(some_fn, none_fn)`: when None, return `none_fn()` without
touching the state; when Some, clear the discriminant and return
`some_fn(move(*v))`.  Callbacks are effectful.  Returns
(result, container after, effect state). -/
def match' [Inhabited α] (o : QOption α) (some_fn : α → σ → σ × ρ)
    (none_fn : σ → σ × ρ) (s : σ) : ρ × QOption α × σ :=
  if o.isNone then
    let r := none_fn s
    (r.2, o, r.1)
  else
    let o1 : QOption α := { o with available := false }
    let r := some_fn (o1.store.getD default) s
    (r.2, o1, r.1)

/-- `Type unwrap_def(def_value)` (both the copying and the moving
overload behave identically in the model): when None, the storage cell is
first overwritten with `def_value`; either way the discriminant is then
cleared and the stored value moved out. -/
def unwrap_def [Inhabited α] (o : QOption α) (def_value : α) :
    α × QOption α :=
  let o1 : QOption α := if o.isNone then { o with store := Option.some def_value } else o
  let o2 : QOption α := { o1 with available := false }
  (o2.store.getD default, o2)

/-- The read event produced by reading `o`'s storage cell now. -/
def rdEv (o : QOption α) : ReadEvent := ⟨o.available, o.store.isSome⟩

/-- `unwrap` instrumented with the storage reads it performs.  The single
read `std::move(*__ptr_v())` happens after `available = false`. -/
def unwrapL [Inhabited α] (o : QOption α) (mkE : String → ε) :
    Except ε (α × QOption α) × List ReadEvent :=
  if o.isNone then (Except.error (mkE "Option is None value"), [])
  else
    let o1 : QOption α := { o with available := false }
    (Except.ok (o1.store.getD default, o1), [rdEv o1])

/-- `expect` instrumented with its storage reads. -/
def expectL [Inhabited α] (o : QOption α) (mkE : String → ε) (text : String) :
    Except ε (α × QOption α) × List ReadEvent :=
  if o.isNone then (Except.error (mkE text), [])
  else
    let o1 : QOption α := { o with available := false }
    (Except.ok (o1.store.getD default, o1), [rdEv o1])

/-- `unwrap_or` instrumented: the one read at `return std::move(*v)`
happens after `available = false`, possibly after the None branch wrote
the fallback into storage. -/
def unwrap_orL [Inhabited α] (o : QOption α) (none_fn : σ → σ × α) (s : σ) :
    (α × QOption α × σ) × List ReadEvent :=
  let p : QOption α × σ :=
    if o.isNone then
      let r := none_fn s
      ({ o with store := Option.some r.2 }, r.1)
    else (o, s)
  let o2 : QOption α := { p.1 with available := false }
  ((o2.store.getD default, o2, p.2), [rdEv o2])

/-- `unwrap_def` instrumented (both overloads). -/
def unwrap_defL [Inhabited α] (o : QOption α) (def_value : α) :
    (α × QOption α) × List ReadEvent :=
  let o1 : QOption α := if o.isNone then { o with store := Option.some def_value } else o
  let o2 : QOption α := { o1 with available := false }
  ((o2.store.getD default, o2), [rdEv o2])

/-- `match` instrumented: the None branch performs no storage read; the
Some branch reads once, after `available = false`. -/
def matchL [Inhabited α] (o : QOption α) (some_fn : α → σ → σ × ρ)
    (none_fn : σ → σ × ρ) (s : σ) : (ρ × QOption α × σ) × List ReadEvent :=
  if o.isNone then
    let r := none_fn s
    ((r.2, o, r.1), [])
  else
    let o1 : QOption α := { o with available := false }
    let r := some_fn (o1.store.getD default) s
    ((r.2, o1, r.1), [rdEv o1])

/-- `if_some` instrumented: when Some, `fn(*v)` reads the storage with the
discriminant still set. -/
def if_someL [Inhabited α] (o : QOption α) (fn : α → σ → σ) (s : σ) :
    (QOption α × σ) × List ReadEvent :=
  if o.isSome then ((o, fn (o.store.getD default) s), [rdEv o]) else ((o, s), [])

/-- `operator==` instrumented: both storage cells are read only when the
short-circuit evaluation reaches `*v == *o.v`, i.e. when both operands
are Some. -/
def beqL [Inhabited α] [DecidableEq α] (a b : QOption α) :
    Bool × List ReadEvent :=
  if a.isSome == b.isSome then
    if a.isSome then
      ((decide (a.store.getD default = b.store.getD default) || a.isNone),
        [rdEv a, rdEv b])
    else (a.isNone, [])
  else (false, [])

/-- Move constructor instrumented: the read happens inside `o.unwrap()`,
after the source's discriminant was cleared. -/
def moveCtorL [Inhabited α] (o : QOption α) :
    (QOption α × QOption α) × List ReadEvent :=
  if o.isSome then
    let o1 : QOption α := { o with available := false }
    ((⟨true, Option.some (o1.store.getD default)⟩, o1), [rdEv o1])
  else ((⟨false, Option.none⟩, o), [])

/-- Copy constructor instrumented (same body as the move constructor). -/
def copyCtorL [Inhabited α] (o : QOption α) :
    (QOption α × QOption α) × List ReadEvent :=
  if o.isSome then
    let o1 : QOption α := { o with available := false }
    ((⟨true, Option.some (o1.store.getD default)⟩, o1), [rdEv o1])
  else ((⟨false, Option.none⟩, o), [])

/-- Move assignment instrumented: reads the source inside `o.unwrap()`,
after the source's discriminant was cleared. -/
def assignMoveL [Inhabited α] (self o : QOption α) :
    (QOption α × QOption α) × List ReadEvent :=
  if o.isSome then
    let o1 : QOption α := { o with available := false }
    let v : α := o1.store.getD default
    (({ self with available := true, store := Option.some v }, o1), [rdEv o1])
  else (({ self with available := false }, o), [])

/-- Copy assignment instrumented: `value = o.value` reads the source's
raw cell after `o.available = false` was executed. -/
def assignCopyL (self o : QOption α) :
    (QOption α × QOption α) × List ReadEvent :=
  if o.isSome then
    let o1 : QOption α := { o with available := false }
    (({ self with available := true, store := o1.store }, o1), [rdEv o1])
  else (({ self with available := false }, o), [])

/-- Value-copy constructor `QOption(const Type& t)` instrumented:
`*__ptr_v() = t` only writes the fresh cell, so no storage read
occurs. -/
def SomeCopyL (t : α) : QOption α × List ReadEvent :=
  (⟨true, Option.some t⟩, [])

/-- Value-move constructor `QOption(Type&& t)` instrumented: on the
fresh object the discriminant holds its default member initializer
`false` and the cell has never been written; `std::swap(*__ptr_v(), t)`
reads that never-written cell, swaps its indeterminate content into the
expiring argument and puts `t` into the cell, then `available` is set.
Returns (constructed container, content left in the argument), with the
swap's storage read logged. -/
def SomeMoveL [Inhabited α] (t : α) : (QOption α × α) × List ReadEvent :=
  let o0 : QOption α := ⟨false, Option.none⟩
  ((⟨true, Option.some t⟩, o0.store.getD default), [rdEv o0])

/-- The container is in the Empty state. -/
def EmptyState (o : QOption α) : Prop := o.available = false

/-- The container is Occupied and its storage holds `v`. -/
def OccupiedWith (o : QOption α) (v : α) : Prop :=
  o.available = true ∧ o.store = Option.some v

/-- Well-formed raw state: whenever the discriminant is set, the storage
cell has been written.  Every container reachable through the public API
satisfies this. -/
def WF (o : QOption α) : Prop := o.available = true → o.store.isSome = true

/-- C1: for every value `v`, a container created as `Some v` returns `v`
from `unwrap`, and the container after the call is Empty (`isNone` true,
`isSome` false). -/
theorem some_unwrap_yields_value_and_empties [Inhabited α] (v : α)
    (mkE : String → ε) :
    ∃ o' : QOption α, unwrap (Some v) mkE = Except.ok (v, o') ∧
      o'.isNone = true ∧ o'.isSome = false := by
  exact ⟨⟨false, Option.some v⟩, rfl, rfl, rfl⟩

/-- C9: copy-assigning a container to itself (`c = c`) leaves it
unchanged — the statement order of `operator=(QOption&)` (clear the
source flag, copy the shared cell, set the flag) restores an Occupied
container, and an Empty one stays Empty. -/
theorem self_copy_assignment_is_identity (c : QOption α) :
    assignCopySelf c = c := by
  rcases c with ⟨av, st⟩
  cases av <;> rfl

/-- C2: all four transfer operations (move/copy construction, move/copy
assignment) move the source's value: an Occupied source of value `v`
makes the destination Occupied with `v` and becomes Empty; an Empty
source makes the destination Empty; in every case the source ends Empty,
so at most one of the two containers holds the value afterwards. -/
theorem transfer_moves_value_and_empties_source [Inhabited α]
    (o self : QOption α) (v : α) :
    (OccupiedWith o v →
      OccupiedWith (moveCtor o).1 v ∧
      copyCtor o = moveCtor o ∧
      OccupiedWith (assignMove self o).1 v ∧
      OccupiedWith (assignCopy self o).1 v) ∧
    (EmptyState o →
      EmptyState (moveCtor o).1 ∧
      copyCtor o = moveCtor o ∧
      EmptyState (assignMove self o).1 ∧
      EmptyState (assignCopy self o).1) ∧
    (EmptyState (moveCtor o).2 ∧ EmptyState (copyCtor o).2 ∧
      EmptyState (assignMove self o).2 ∧ EmptyState (assignCopy self o).2) := by
  rcases o with ⟨av, st⟩
  refine ⟨?_, ?_, ?_⟩
  · rintro ⟨h1, h2⟩
    cases h1
    cases h2
    simp [moveCtor, copyCtor, assignMove, assignCopy, OccupiedWith, isSome]
  · intro h
    cases h
    simp [moveCtor, copyCtor, assignMove, assignCopy, EmptyState, isSome]
  · cases av <;>
      simp [moveCtor, copyCtor, assignMove, assignCopy, EmptyState, isSome]

/-- C2 witness: transferring out of `Some 5` (the spec's P4 example). -/
theorem transfer_moves_value_witness :
    OccupiedWith (moveCtor (Some 5 : QOption Nat)).1 5 ∧
      EmptyState (moveCtor (Some 5 : QOption Nat)).2 := by
  exact ⟨(transfer_moves_value_and_empties_source (Some 5) None 5).1
      ⟨rfl, rfl⟩ |>.1,
    (transfer_moves_value_and_empties_source (Some 5) None 5).2.2.1⟩

/-- C10: assigning from an Empty source leaves the destination Empty
(whatever it held before is discarded) and the source Empty; unwrapping
the destination afterwards fails instead of yielding the old value. -/
theorem assign_from_empty_source_discards [Inhabited α] (self o : QOption α)
    (mkE : String → ε) (h : EmptyState o) :
    (assignMove self o).1.isNone = true ∧ (assignMove self o).2 = o ∧
    (assignCopy self o).1.isNone = true ∧ (assignCopy self o).2 = o ∧
    (∃ e, unwrap (assignMove self o).1 mkE = Except.error e) ∧
    (∃ e, unwrap (assignCopy self o).1 mkE = Except.error e) := by
  rcases o with ⟨av, st⟩
  cases h
  refine ⟨rfl, rfl, rfl, rfl, ⟨mkE "Option is None value", rfl⟩,
    ⟨mkE "Option is None value", rfl⟩⟩

/-- C10 witness: assigning from an Empty source into `Some 5`. -/
theorem assign_from_empty_source_witness :
    (assignMove (Some 5 : QOption Nat) None).1.isNone = true ∧
      (assignCopy (Some 5 : QOption Nat) None).1.isNone = true := by
  have h := assign_from_empty_source_discards (Some 5 : QOption Nat) None
    (fun s : String => s) rfl
  exact ⟨h.1, h.2.2.1⟩

/-- C3: `match` runs exactly one branch exactly once and returns its
result: on an Empty container it is `none_fn` applied once to the
incoming effect state and the container is returned untouched; on an
Occupied container holding `v` it is `some_fn v` applied once, and the
container comes back with its discriminant cleared (Empty). -/
theorem match_runs_exactly_one_branch [Inhabited α] (o : QOption α) (v : α)
    (some_fn : α → σ → σ × ρ) (none_fn : σ → σ × ρ) (s : σ) :
    (EmptyState o →
      match' o some_fn none_fn s = ((none_fn s).2, o, (none_fn s).1)) ∧
    (OccupiedWith o v →
      match' o some_fn none_fn s
          = ((some_fn v s).2, { o with available := false }, (some_fn v s).1) ∧
        EmptyState (match' o some_fn none_fn s).2.1) := by
  rcases o with ⟨av, st⟩
  constructor
  · intro h
    cases h
    rfl
  · rintro ⟨h1, h2⟩
    cases h1
    cases h2
    exact ⟨rfl, rfl⟩

/-- C3 witness: `match` on `Some 3` runs the Some branch once on the
counter state and empties the container. -/
theorem match_runs_exactly_one_branch_witness :
    match' (Some 3 : QOption Nat) (fun v s => (s + 1, v * 2))
        (fun s => (s + 100, 0)) 0 = (6, ⟨false, Option.some 3⟩, 1) := by
  exact ((match_runs_exactly_one_branch (Some 3) 3 (fun v s => (s + 1, v * 2))
    (fun s => (s + 100, 0)) 0).2 ⟨rfl, rfl⟩).1

/-- C4: `unwrap_or` invokes the fallback exactly once and returns its
result when the container was Empty, and returns the contained value
without invoking the fallback when it was Occupied; `unwrap_def` behaves
the same with a precomputed default; both leave the container Empty. -/
theorem unwrap_or_and_unwrap_def_fallback [Inhabited α] (o : QOption α)
    (v : α) (none_fn : σ → σ × α) (s : σ) (d : α) :
    (EmptyState o →
      unwrap_or o none_fn s
          = ((none_fn s).2,
            { o with store := Option.some (none_fn s).2, available := false },
            (none_fn s).1) ∧
        unwrap_def o d = (d, { o with store := Option.some d, available := false })) ∧
    (OccupiedWith o v →
      unwrap_or o none_fn s = (v, { o with available := false }, s) ∧
        unwrap_def o d = (v, { o with available := false })) ∧
    ((unwrap_or o none_fn s).2.1.isNone = true ∧
      (unwrap_def o d).2.isNone = true) := by
  rcases o with ⟨av, st⟩
  refine ⟨?_, ?_, ?_⟩
  · intro h
    cases h
    exact ⟨rfl, rfl⟩
  · rintro ⟨h1, h2⟩
    cases h1
    cases h2
    exact ⟨rfl, rfl⟩
  · cases av <;> exact ⟨rfl, rfl⟩

/-- C4 witness: `unwrap_or` on an Empty container invokes the fallback
once (counter goes to 1) and returns its value; on `Some 4` it keeps the
original value and the counter stays 0. -/
theorem unwrap_or_and_unwrap_def_witness :
    unwrap_or (None : QOption Nat) (fun s => (s + 1, 9)) 0
        = (9, ⟨false, Option.some 9⟩, 1) ∧
      unwrap_or (Some 4 : QOption Nat) (fun s => (s + 1, 9)) 0
        = (4, ⟨false, Option.some 4⟩, 0) := by
  exact ⟨((unwrap_or_and_unwrap_def_fallback (None : QOption Nat) 0
      (fun s => (s + 1, 9)) 0 9).1 rfl).1,
    ((unwrap_or_and_unwrap_def_fallback (Some 4 : QOption Nat) 4
      (fun s => (s + 1, 9)) 0 9).2.1 ⟨rfl, rfl⟩).1⟩

/-- C5: `unwrap` and `expect` fail exactly when the container is Empty —
the error is the caller-chosen exception built from the default message
(resp. the caller's text) — and on an Empty container they produce an
error rather than a value.  (The remaining operations are not
`Except`-valued in the embedding, mirroring that only these two can
throw.) -/
theorem unwrap_expect_fail_iff_empty [Inhabited α] (o : QOption α)
    (mkE : String → ε) (text : String) :
    ((∃ e, unwrap o mkE = Except.error e) ↔ o.isNone = true) ∧
    ((∃ e, expect o mkE text = Except.error e) ↔ o.isNone = true) ∧
    (o.isNone = true →
      unwrap o mkE = Except.error (mkE "Option is None value") ∧
        expect o mkE text = Except.error (mkE text)) := by
  rcases o with ⟨av, st⟩
  cases av
  · exact ⟨⟨fun _ => rfl, fun _ => ⟨mkE "Option is None value", rfl⟩⟩,
      ⟨fun _ => rfl, fun _ => ⟨mkE text, rfl⟩⟩,
      fun _ => ⟨rfl, rfl⟩⟩
  · refine ⟨⟨?_, ?_⟩, ⟨?_, ?_⟩, ?_⟩
    · rintro ⟨e, he⟩
      exact absurd he (by simp [unwrap, isNone])
    · intro h
      exact absurd h (by simp [isNone])
    · rintro ⟨e, he⟩
      exact absurd he (by simp [expect, isNone])
    · intro h
      exact absurd h (by simp [isNone])
    · intro h
      exact absurd h (by simp [isNone])

/-- C5 witness: on the Empty container, `unwrap` raises the default
message and `expect` the supplied one. -/
theorem unwrap_expect_fail_witness :
    unwrap (None : QOption Nat) (fun s => s)
        = Except.error "Option is None value" ∧
      expect (None : QOption Nat) (fun s => s) "custom message"
        = Except.error "custom message" := by
  exact (unwrap_expect_fail_iff_empty (None : QOption Nat) (fun s => s)
    "custom message").2.2 rfl

/-- C6: `operator==` holds iff both containers are Empty, or both are
Occupied with equal contained values; the comparison is a pure function
of the two states (no mutation, no consumption). -/
theorem eq_iff_both_empty_or_equal_values [Inhabited α] [DecidableEq α]
    (a b : QOption α) (ha : WF a) (hb : WF b) :
    beq a b = true ↔
      (EmptyState a ∧ EmptyState b) ∨
        ∃ v, OccupiedWith a v ∧ OccupiedWith b v := by
  rcases a with ⟨aa, as'⟩
  rcases b with ⟨ba, bs⟩
  cases aa <;> cases ba
  · simp [beq, isSome, isNone, EmptyState, OccupiedWith]
  · simp [beq, isSome, isNone, EmptyState, OccupiedWith]
  · simp [beq, isSome, isNone, EmptyState, OccupiedWith]
  · obtain ⟨x, rfl⟩ := Option.isSome_iff_exists.mp (ha rfl)
    obtain ⟨y, rfl⟩ := Option.isSome_iff_exists.mp (hb rfl)
    constructor
    · intro h
      have hxy : x = y := by
        have hd : (decide (x = y) : Bool) = true := by
          simpa [beq, isSome, isNone] using h
        exact of_decide_eq_true hd
      cases hxy
      exact Or.inr ⟨x, ⟨rfl, rfl⟩, ⟨rfl, rfl⟩⟩
    · rintro (⟨h1, _⟩ | ⟨w, ⟨_, hw1⟩, ⟨_, hw2⟩⟩)
      · cases h1
      · cases hw1
        cases hw2
        simp [beq, isSome, isNone]

/-- C6 witness: the spec's P7 instances over `Nat`. -/
theorem eq_iff_witness :
    beq (None : QOption Nat) None = true ∧
      beq (Some 3 : QOption Nat) (Some 3) = true ∧
      beq (Some 3 : QOption Nat) (Some 4) = false ∧
      beq (Some 3 : QOption Nat) None = false := by
  refine ⟨?_, ?_, ?_, ?_⟩
  · exact (eq_iff_both_empty_or_equal_values (None : QOption Nat) None
      (fun h => by cases h) (fun h => by cases h)).mpr (Or.inl ⟨rfl, rfl⟩)
  · exact (eq_iff_both_empty_or_equal_values (Some 3 : QOption Nat) (Some 3)
      (fun _ => rfl) (fun _ => rfl)).mpr (Or.inr ⟨3, ⟨rfl, rfl⟩, ⟨rfl, rfl⟩⟩)
  · by_contra h
    have := (eq_iff_both_empty_or_equal_values (Some 3 : QOption Nat) (Some 4)
      (fun _ => rfl) (fun _ => rfl)).mp (by revert h; decide)
    rcases this with ⟨h1, _⟩ | ⟨w, ⟨_, hw1⟩, ⟨_, hw2⟩⟩
    · cases h1
    · cases hw1
      cases hw2
  · by_contra h
    have := (eq_iff_both_empty_or_equal_values (Some 3 : QOption Nat) None
      (fun _ => rfl) (fun h => by cases h)).mp (by revert h; decide)
    rcases this with ⟨h1, _⟩ | ⟨_, _, h2, _⟩
    · cases h1
    · cases h2

/-- C7: `if_some` and `if_none` return the container unchanged (state and
stored value intact); `if_some` runs its callback on the contained value
exactly when Occupied, `if_none` exactly when Empty; and after chaining
both on `Some v`, `unwrap` still yields `v`. -/
theorem if_some_if_none_do_not_consume [Inhabited α] (o : QOption α) (v : α)
    (f : α → σ → σ) (g : σ → σ) (s : σ) (mkE : String → ε) :
    (if_some o f s).1 = o ∧ (if_none o g s).1 = o ∧
    (OccupiedWith o v →
      (if_some o f s).2 = f v s ∧ (if_none o g s).2 = s ∧
      unwrap (if_none (if_some o f s).1 g (if_some o f s).2).1 mkE
        = Except.ok (v, { o with available := false })) ∧
    (EmptyState o → (if_some o f s).2 = s ∧ (if_none o g s).2 = g s) := by
  rcases o with ⟨av, st⟩
  refine ⟨?_, ?_, ?_, ?_⟩
  · cases av <;> rfl
  · cases av <;> rfl
  · rintro ⟨h1, h2⟩
    cases h1
    cases h2
    exact ⟨rfl, rfl, rfl⟩
  · intro h
    cases h
    exact ⟨rfl, rfl⟩

/-- C7 witness: the chaining scenario on `Some 7` — the container is
returned unchanged and the final `unwrap` still yields 7. -/
theorem if_some_if_none_witness :
    (if_some (Some 7 : QOption Nat) (fun v s => s + v) 0).1 = Some 7 ∧
      unwrap (if_none (if_some (Some 7 : QOption Nat) (fun v s => s + v) 0).1
          (fun s => s + 100)
          (if_some (Some 7 : QOption Nat) (fun v s => s + v) 0).2).1
        (fun s : String => s)
        = Except.ok (7, ⟨false, Option.some 7⟩) := by
  have h := if_some_if_none_do_not_consume (Some 7 : QOption Nat) 7
    (fun v s => s + v) (fun s => s + 100) 0 (fun s : String => s)
  exact ⟨h.1, (h.2.2.1 ⟨rfl, rfl⟩).2.2⟩

lemma unwrapL_reads_initialized [Inhabited α] (o : QOption α)
    (mkE : String → ε) (ho : WF o) :
    ((unwrapL o mkE).2.all fun e => e.storeInit) = true := by
  rcases o with ⟨av, st⟩
  cases av
  · rfl
  · obtain ⟨x, rfl⟩ := Option.isSome_iff_exists.mp (ho rfl)
    rfl

lemma expectL_reads_initialized [Inhabited α] (o : QOption α)
    (mkE : String → ε) (text : String) (ho : WF o) :
    ((expectL o mkE text).2.all fun e => e.storeInit) = true := by
  rcases o with ⟨av, st⟩
  cases av
  · rfl
  · obtain ⟨x, rfl⟩ := Option.isSome_iff_exists.mp (ho rfl)
    rfl

lemma unwrap_orL_reads_initialized [Inhabited α] (o : QOption α)
    (none_fn : σ → σ × α) (s : σ) (ho : WF o) :
    ((unwrap_orL o none_fn s).2.all fun e => e.storeInit) = true := by
  rcases o with ⟨av, st⟩
  cases av
  · rfl
  · obtain ⟨x, rfl⟩ := Option.isSome_iff_exists.mp (ho rfl)
    rfl

lemma unwrap_defL_reads_initialized [Inhabited α] (o : QOption α) (d : α)
    (ho : WF o) :
    ((unwrap_defL o d).2.all fun e => e.storeInit) = true := by
  rcases o with ⟨av, st⟩
  cases av
  · rfl
  · obtain ⟨x, rfl⟩ := Option.isSome_iff_exists.mp (ho rfl)
    rfl

lemma matchL_reads_initialized [Inhabited α] (o : QOption α)
    (some_fn : α → σ → σ × ρ) (none_fn : σ → σ × ρ) (s : σ) (ho : WF o) :
    ((matchL o some_fn none_fn s).2.all fun e => e.storeInit) = true := by
  rcases o with ⟨av, st⟩
  cases av
  · rfl
  · obtain ⟨x, rfl⟩ := Option.isSome_iff_exists.mp (ho rfl)
    rfl

lemma if_someL_reads_initialized [Inhabited α] (o : QOption α)
    (f : α → σ → σ) (s : σ) (ho : WF o) :
    ((if_someL o f s).2.all fun e => e.storeInit) = true := by
  rcases o with ⟨av, st⟩
  cases av
  · rfl
  · obtain ⟨x, rfl⟩ := Option.isSome_iff_exists.mp (ho rfl)
    rfl

lemma beqL_reads_initialized [Inhabited α] [DecidableEq α] (a b : QOption α)
    (ha : WF a) (hb : WF b) :
    ((beqL a b).2.all fun e => e.storeInit) = true := by
  rcases a with ⟨aa, as'⟩
  rcases b with ⟨ba, bs⟩
  cases aa <;> cases ba
  · rfl
  · rfl
  · rfl
  · obtain ⟨x, rfl⟩ := Option.isSome_iff_exists.mp (ha rfl)
    obtain ⟨y, rfl⟩ := Option.isSome_iff_exists.mp (hb rfl)
    rfl

lemma moveCtorL_reads_initialized [Inhabited α] (o : QOption α) (ho : WF o) :
    ((moveCtorL o).2.all fun e => e.storeInit) = true := by
  rcases o with ⟨av, st⟩
  cases av
  · rfl
  · obtain ⟨x, rfl⟩ := Option.isSome_iff_exists.mp (ho rfl)
    rfl

lemma copyCtorL_reads_initialized [Inhabited α] (o : QOption α) (ho : WF o) :
    ((copyCtorL o).2.all fun e => e.storeInit) = true := by
  rcases o with ⟨av, st⟩
  cases av
  · rfl
  · obtain ⟨x, rfl⟩ := Option.isSome_iff_exists.mp (ho rfl)
    rfl

lemma assignMoveL_reads_initialized [Inhabited α] (self o : QOption α)
    (ho : WF o) :
    ((assignMoveL self o).2.all fun e => e.storeInit) = true := by
  rcases o with ⟨av, st⟩
  cases av
  · rfl
  · obtain ⟨x, rfl⟩ := Option.isSome_iff_exists.mp (ho rfl)
    rfl

lemma assignCopyL_reads_initialized (self o : QOption α) (ho : WF o) :
    ((assignCopyL self o).2.all fun e => e.storeInit) = true := by
  rcases o with ⟨av, st⟩
  cases av
  · rfl
  · obtain ⟨x, rfl⟩ := Option.isSome_iff_exists.mp (ho rfl)
    rfl

/-- C8 counterexample: `unwrap_or` applied to an Empty container reads
the storage cell while the discriminant still indicates Empty (the read
log of the instrumented code holds an event with `availAtRead = false`),
so it is not the case that storage is only ever read while the
discriminant indicates Occupied; moreover the value-move constructor's
`std::swap` reads a cell that was never written at all, with the
discriminant likewise indicating Empty. -/
theorem storage_read_while_empty_counterexample :
    EmptyState (⟨false, Option.none⟩ : QOption Nat) ∧
    (unwrap_orL (⟨false, Option.none⟩ : QOption Nat) (fun s => (s, 7)) 0).2
      = [⟨false, true⟩] ∧
    ((unwrap_orL (⟨false, Option.none⟩ : QOption Nat) (fun s => (s, 7)) 0).2.all
        fun e => e.availAtRead) = false ∧
    (SomeMoveL (0 : Nat)).2 = [⟨false, false⟩] ∧
    ((SomeMoveL (0 : Nat)).2.all fun e => e.storeInit) = false := by
  exact ⟨rfl, rfl, rfl, rfl, rfl⟩

/-- C8 (amended): in every member operation of a constructed container
(the unwrap family, `match`, `if_some`, `operator==`, the transfer
constructors and both assignments), every read of the value storage is
of initialized storage — the container was Occupied at the operation's
entry, or the operation itself wrote the cell earlier in the same call
(the fallback/default paths of `unwrap_or`/`unwrap_def`).  The
value-copy constructor reads no storage at all.  The one read of a
never-written cell is the `std::swap` of the value-move constructor, and
its indeterminate content escapes only into the expiring constructor
argument: the constructed container is exactly `Some t`, so
indeterminate storage content never reaches the container's state or any
other result. -/
theorem storage_reads_initialized_or_value_move_swap [Inhabited α]
    [DecidableEq α] (o self a b : QOption α) (some_fn : α → σ → σ × ρ)
    (none_fn : σ → σ × ρ) (nf : σ → σ × α) (f : α → σ → σ) (s : σ)
    (mkE : String → ε) (text : String) (d t : α)
    (ho : WF o) (ha : WF a) (hb : WF b) :
    (((unwrapL o mkE).2.all fun e => e.storeInit) = true ∧
      ((expectL o mkE text).2.all fun e => e.storeInit) = true ∧
      ((unwrap_orL o nf s).2.all fun e => e.storeInit) = true ∧
      ((unwrap_defL o d).2.all fun e => e.storeInit) = true ∧
      ((matchL o some_fn none_fn s).2.all fun e => e.storeInit) = true ∧
      ((if_someL o f s).2.all fun e => e.storeInit) = true ∧
      ((beqL a b).2.all fun e => e.storeInit) = true ∧
      ((moveCtorL o).2.all fun e => e.storeInit) = true ∧
      ((copyCtorL o).2.all fun e => e.storeInit) = true ∧
      ((assignMoveL self o).2.all fun e => e.storeInit) = true ∧
      ((assignCopyL self o).2.all fun e => e.storeInit) = true) ∧
    (SomeCopyL t).2 = [] ∧
    (SomeMoveL t).2 = [⟨false, false⟩] ∧
    (SomeMoveL t).1.1 = Some t := by
  exact ⟨⟨unwrapL_reads_initialized o mkE ho,
    expectL_reads_initialized o mkE text ho,
    unwrap_orL_reads_initialized o nf s ho,
    unwrap_defL_reads_initialized o d ho,
    matchL_reads_initialized o some_fn none_fn s ho,
    if_someL_reads_initialized o f s ho,
    beqL_reads_initialized a b ha hb,
    moveCtorL_reads_initialized o ho,
    copyCtorL_reads_initialized o ho,
    assignMoveL_reads_initialized self o ho,
    assignCopyL_reads_initialized self o ho⟩, rfl, rfl, rfl⟩

/-- C8 witness: the amended statement instantiated at concrete
containers — member-operation reads are initialized, and the value-move
constructor's one never-written-cell read leaves the container state
`Some 2`. -/
theorem storage_reads_initialized_witness :
    ((unwrapL (Some 2 : QOption Nat) (fun s : String => s)).2.all
        fun e => e.storeInit) = true ∧
      (SomeMoveL (2 : Nat)).2 = [⟨false, false⟩] ∧
      (SomeMoveL (2 : Nat)).1.1 = Some 2 := by
  have h := storage_reads_initialized_or_value_move_swap (Some 2 : QOption Nat)
    (Some 0) (Some 1) (Some 3) (fun v s => (s, v)) (fun s => (s, 0))
    (fun s => (s, 5)) (fun v s => s + v) 0 (fun s : String => s) "t" 8 2
    (fun _ => rfl) (fun _ => rfl) (fun _ => rfl)
  exact ⟨h.1.1, h.2.2.1, h.2.2.2⟩

end QOption
